import Mathlib

/-!
Verification of the corpus-loading utility (class Signal in hallucination.py):
filename canonicalization, decimal time formatting, allow-list ingestion, and
the cache-or-fetch orchestration for the held-back ("speaker overlap") split.

The embedding models the Python code shallowly:
  Python dict / set     -> association list (List (String x Segment)) / Finset String
  raised exceptions     -> Except PyExc
  external I/O results  -> explicit arguments (cache state, fetched stream)
Machine-level concerns (actual file handles, the HuggingFace client, logging)
are out of scope; their observable results are passed in as values.
-/

/-- Python exceptions that the modelled code can raise or propagate. -/
inductive PyExc where
  /-- TypeError, e.g. re.match given a non-pattern first argument, membership
      test of an unhashable dict in a set, or subscripting a bool. -/
  | typeError
  /-- NameError, e.g. a reference to an undefined name such as self inside a
      staticmethod body. -/
  | nameError
  /-- ValueError with its message string. -/
  | valueError (msg : String)
  /-- FileNotFoundError from opening a path that does not exist. -/
  | fileNotFound
  /-- Any other OSError / IOError (permission denied, disk error, ...),
      tagged by an errno-like code. -/
  | ioError (code : Nat)
  /-- pickle.UnpicklingError from a corrupt cache file. -/
  | unpicklingError
  /-- decimal.InvalidOperation from the Decimal constructor or quantize. -/
  | invalidOperation
deriving DecidableEq, Repr

/-- Decidable equality of modelled call results, used to evaluate the
concrete examples below. -/
instance {ε α : Type} [DecidableEq ε] [DecidableEq α] : DecidableEq (Except ε α)
  | .ok a, .ok b =>
      if h : a = b then .isTrue (by rw [h]) else .isFalse (by simp [h])
  | .ok _, .error _ => .isFalse (by simp)
  | .error _, .ok _ => .isFalse (by simp)
  | .error a, .error b =>
      if h : a = b then .isTrue (by rw [h]) else .isFalse (by simp [h])

/-- One fetched corpus segment: the corpus-assigned id string plus an opaque
payload standing for the audio array and remaining metadata, which the code
passes through unchanged. -/
structure Segment where
  id : String
  payload : Nat
deriving DecidableEq, Repr

/-- A nonnegative decimal.Decimal value: mant scaled down by 10 ^ scale.
Trailing zeros of the literal are kept in the scale, as Decimal does. -/
structure Dec where
  mant : Nat
  scale : Nat
deriving DecidableEq, Repr

/-- Numeric value of a digit list read in base 10. -/
def natOfDigits (cs : List Char) : Nat :=
  cs.foldl (fun n c => 10 * n + (c.toNat - 48)) 0

/-- Parse a plain unsigned fixed-point literal, the only shape the segment-id
regex can hand to the Decimal constructor: digits with at most one decimal
point and at least one digit overall.  Every other string (two dots, a lone
dot, empty) makes Decimal raise InvalidOperation, modelled as none.
Sign, exponent and NaN forms of the Decimal grammar cannot occur here. -/
def parseDec (s : String) : Option Dec :=
  let cs := s.toList
  let a := cs.takeWhile Char.isDigit
  let rest := cs.drop a.length
  match rest with
  | [] => if a.isEmpty then none else some ⟨natOfDigits a, 0⟩
  | '.' :: b =>
      if b.all Char.isDigit && !(a.isEmpty && b.isEmpty) then
        some ⟨natOfDigits (a ++ b), b.length⟩
      else none
  | _ => none

/-- time.quantize(Decimal(0.00000001), rounding=ROUND_DOWN) on a nonnegative
value: truncate to 8 decimal places; result is the coefficient at scale 8. -/
def quantize8Down (d : Dec) : Nat :=
  if d.scale ≤ 8 then d.mant * 10 ^ (8 - d.scale)
  else d.mant / 10 ^ (d.scale - 8)

/-- Round q / 100 to the nearest integer, ties to even: this is how the .6f
format specifier rescales a scale-8 Decimal coefficient to 6 decimal places
under the default context rounding ROUND_HALF_EVEN. -/
def roundHalfEvenDiv100 (q : Nat) : Nat :=
  let d := q / 100
  let m := q % 100
  if m < 50 then d
  else if 50 < m then d + 1
  else if d % 2 = 0 then d else d + 1

/-- Left-pad a string with the character c to at least width w. -/
def padCharLeft (c : Char) (w : Nat) (s : String) : String :=
  if w ≤ s.length then s
  else String.mk (List.replicate (w - s.length) c) ++ s

/-- Render a value given as an integer count r of millionths with exactly six
digits after the decimal point, as the format specifier .6f does. -/
def render6f (r : Nat) : String :=
  Nat.repr (r / 1000000) ++ "." ++ padCharLeft '0' 6 (Nat.repr (r % 1000000))

/-- str.replace on the rendered number: delete every decimal point. -/
def removeDot (s : String) : String :=
  String.mk (s.toList.filter (fun c => c != '.'))

/-- Signal._format_time (hallucination.py lines 148-158):
Decimal(time_str), quantize to 8 decimal places with ROUND_DOWN, re-render
with the .6f format (which rounds half-to-even to 6 decimal places under the
default context), and remove the decimal separator.  Returns none when the
Decimal constructor would raise (non-decimal input), or when quantize would
raise InvalidOperation because the truncated coefficient exceeds the default
context precision of 28 digits. -/
def format_time (time_str : String) : Option String :=
  (parseDec time_str).bind fun time =>
    let q := quantize8Down time
    if 10 ^ 28 ≤ q then none
    else some (removeDot (render6f (roundHalfEvenDiv100 q)))

/-- Character class of the talk-id group: [a-zA-Z_0-9.] (the Python pattern
uses the str-mode escape for digits; corpus ids are ASCII). -/
def idClassChar (c : Char) : Bool :=
  (('a' ≤ c && c ≤ 'z') || ('A' ≤ c && c ≤ 'Z')) || c.isDigit || c == '_' || c == '.'

/-- Character class of the two time groups: [0-9.]. -/
def timeClassChar (c : Char) : Bool :=
  c.isDigit || c == '.'

/-- re.match of the pattern (id)[a-zA-Z_0-9.]+ - (start)[0-9.]+ - (end)[0-9.]+
against a string (hallucination.py line 134).  Because the hyphen separator
belongs to neither character class, each greedy group is forced to be the
maximal run of its class and regex backtracking can never produce a different
split, so the match function is this deterministic scan.  re.match anchors at
the start only; trailing characters after the third group are ignored. -/
def reMatchTimings (s : String) : Option (String × String × String) :=
  let cs := s.toList
  let p1 := cs.takeWhile idClassChar
  let r1 := cs.drop p1.length
  if p1.isEmpty then none else
  match r1 with
  | '-' :: r2 =>
      let p2 := r2.takeWhile timeClassChar
      let r3 := r2.drop p2.length
      if p2.isEmpty then none else
      match r3 with
      | '-' :: r4 =>
          let p3 := r4.takeWhile timeClassChar
          if p3.isEmpty then none
          else some (String.mk p1, String.mk p2, String.mk p3)
      | _ => none
  | _ => none

/-- CPython re.match where the first argument is not a string or compiled
pattern but the result of a previous re.match (a Match object, or None): the
internal compile step raises TypeError before any matching happens.
hallucination.py line 135 does exactly this. -/
def reMatchOnMatchResult (_pat : Option (String × String × String)) (_s : String) :
    Except PyExc (String × String × String) :=
  .error .typeError

/-- Signal.rename_file exactly as written (hallucination.py lines 119-146):
line 134 matches the pattern against segment.id, line 135 then feeds that
match result back into re.match as the pattern argument, which raises
TypeError unconditionally.  The remainder of the body is dead; had control
reached line 142, the reference to self inside a staticmethod would raise
NameError (and the method it names, format_time, does not exist either,
the defined one being _format_time). -/
def rename_file (segment : Segment) : Except PyExc String := do
  let timings_re := reMatchTimings segment.id
  let _timings ← reMatchOnMatchResult timings_re segment.id
  .error .nameError

/-- The intended canonicalizeFilename, per the spec design notes: a single
parse of the segment id against the line-134 pattern, ValueError (the spec
name is MalformedIdError) when it does not match, then each time group is
formatted with _format_time and the components are joined with the f-string
of line 144, whose 0>6 specifier left-pads each formatted time with zeros to
at least 6 characters.  A time group the Decimal constructor rejects (such as
49.4.8, which the regex admits) surfaces the InvalidOperation. -/
def rename_file_intended (segId : String) : Except PyExc String :=
  match reMatchTimings segId with
  | none => .error (.valueError ("Invalid segment ID format: " ++ segId))
  | some (segment_id, start, «end») =>
      match format_time start, format_time «end» with
      | some s, some e =>
          .ok (segment_id ++ "-" ++ padCharLeft '0' 6 s ++ "-" ++
               padCharLeft '0' 6 e ++ ".wav")
      | _, _ => .error .invalidOperation

/-- A fetched-and-keyed snapshot: the dict from canonical filename to segment,
as an association list (insertion order is irrelevant per the data model). -/
def Snapshot : Type := List (String × Segment)

instance : DecidableEq Snapshot := by
  unfold Snapshot
  infer_instance

/-- Python str.strip default whitespace, restricted to ASCII: space, tab,
newline, carriage return, vertical tab, form feed. -/
def pyWhitespaceChar (c : Char) : Bool :=
  c == ' ' || c == '\t' || c == '\n' || c == '\x0d' || c == '\x0b' || c == '\x0c'

/-- Python str.strip(): drop leading and trailing whitespace. -/
def pyStrip (s : String) : String :=
  String.mk (((s.toList.dropWhile pyWhitespaceChar).reverse.dropWhile
    pyWhitespaceChar).reverse)

/-- Signal._process_speakeroverlap_data (hallucination.py lines 160-170):
iterate the allow-list file line by line, strip each line, append the .wav
suffix, and collect into a set.  The open call is not guarded, so a missing
or unreadable file surfaces its OSError unchanged; the file's observable
outcome is passed in as either its line list or the exception. -/
def process_speakeroverlap_data (segment_file : Except PyExc (List String)) :
    Except PyExc (Finset String) :=
  segment_file.map fun lines =>
    (lines.map fun seg_id => pyStrip seg_id ++ ".wav").toFinset

/-- The state an initialised Signal object holds (hallucination.py 25-44);
the logger, speaker and speech_sample fields have no effect on the modelled
operations beyond being stored. -/
structure Signal where
  logInfo : Bool
  speakeroverlap : Bool
  signal_dir : String
  release : String
  speakeroverlap_file : String
  so_segments : Finset String
  pickle_filename : String
deriving DecidableEq

/-- Signal.__init__ (hallucination.py lines 25-44): stores the configuration
and immediately reads the allow-list file via _process_speakeroverlap_data,
unconditionally — before any load method can run and regardless of the
speakeroverlap flag.  An exception from that read aborts construction. -/
def Signal.init (log : Bool) (speakeroverlap : Bool)
    (signal_dir : String) (release : String) (speakeroverlap_file : String)
    (allow_file : Except PyExc (List String)) : Except PyExc Signal := do
  let so ← process_speakeroverlap_data allow_file
  .ok { logInfo := log
        speakeroverlap := speakeroverlap
        signal_dir := signal_dir
        release := release
        speakeroverlap_file := speakeroverlap_file
        so_segments := so
        pickle_filename := "speakeroverlap_data.pkl" }

/-- Observable state of the pickle cache file at the well-known path. -/
inductive CacheState where
  /-- The path does not exist: open raises FileNotFoundError. -/
  | absent
  /-- The path exists but reading it raises some other exception
      (PermissionError, a corrupt pickle, ...). -/
  | failing (e : PyExc)
  /-- The path holds a valid pickled snapshot. -/
  | present (snap : Snapshot)

/-- Signal._load_from_pickle (hallucination.py lines 77-83): open the cache
and unpickle it; any failure propagates to the caller. -/
def load_from_pickle (cache : CacheState) : Except PyExc Snapshot :=
  match cache with
  | .absent => .error .fileNotFound
  | .failing e => .error e
  | .present snap => .ok snap

/-- The dict-comprehension condition of hallucination.py line 99, exactly as
written: self.rename_file(segment in self.so_segments).  Python first
evaluates the membership test, and a segment dict is unhashable, so testing
it against a set of strings raises TypeError before rename_file (itself
applied to a boolean, which has no subscript) could run. -/
def hb_filter_cond (_so_segments : Finset String) (_segment : Segment) :
    Except PyExc Bool :=
  .error .typeError

/-- The dict comprehension of hallucination.py lines 97-99: per segment the
condition is evaluated first; if it holds, the key rename_file(segment) and
the value are added.  Either evaluation's exception aborts the whole
comprehension. -/
def hb_build_dict (so_segments : Finset String) :
    List Segment → Except PyExc Snapshot
  | [] => .ok ([] : Snapshot)
  | segment :: rest => do
      let keep ← hb_filter_cond so_segments segment
      if keep then
        let key ← rename_file segment
        let tail ← hb_build_dict so_segments rest
        .ok ((key, segment) :: tail : Snapshot)
      else
        hb_build_dict so_segments rest

/-- Signal._load_and_pickle_from_hf (hallucination.py lines 85-106): one
load_dataset call whose outcome is passed in (ok with the streamed training
segments, or error with the exception text), wrapped into ValueError on
failure; then the dict comprehension; the pickling write itself is not
value-relevant.  Returns the result paired with the number of load_dataset
invocations made, always 1. -/
def load_and_pickle_from_hf (so_segments : Finset String)
    (fetch_train : Except String (List Segment)) :
    Except PyExc Snapshot × Nat :=
  match fetch_train with
  | .error e =>
      (.error (.valueError ("Error loading dataset from HuggingFace: " ++ e)), 1)
  | .ok all_data_hf => (hb_build_dict so_segments all_data_hf, 1)

/-- The intended fetch-and-filter per the spec design notes: canonicalize the
segment's id, then test membership in the allow-list, keying the retained
segments by canonical filename.  Canonicalization uses the intended
single-parse rename. -/
def hb_build_dict_intended (so_segments : Finset String) :
    List Segment → Except PyExc Snapshot
  | [] => .ok ([] : Snapshot)
  | segment :: rest => do
      let key ← rename_file_intended segment.id
      let tail ← hb_build_dict_intended so_segments rest
      if key ∈ so_segments then
        .ok ((key, segment) :: tail : Snapshot)
      else
        .ok tail

/-- Intended _load_and_pickle_from_hf: as load_and_pickle_from_hf but with
the intended membership filter of the spec design notes. -/
def load_and_pickle_from_hf_intended (so_segments : Finset String)
    (fetch_train : Except String (List Segment)) :
    Except PyExc Snapshot × Nat :=
  match fetch_train with
  | .error e =>
      (.error (.valueError ("Error loading dataset from HuggingFace: " ++ e)), 1)
  | .ok all_data_hf => (hb_build_dict_intended so_segments all_data_hf, 1)

/-- Signal._load_speakeroverlap_data (hallucination.py lines 65-75):
try _load_from_pickle; except FileNotFoundError fall back to
_load_and_pickle_from_hf; every other exception propagates.  The Nat
component counts remote load_dataset invocations. -/
def load_speakeroverlap_data (cache : CacheState) (so_segments : Finset String)
    (fetch_train : Except String (List Segment)) :
    Except PyExc Snapshot × Nat :=
  match load_from_pickle cache with
  | .ok snap => (.ok snap, 0)
  | .error e =>
      if e = .fileNotFound then load_and_pickle_from_hf so_segments fetch_train
      else (.error e, 0)

/-- Signal._load_default_data (hallucination.py lines 108-117): one
load_dataset call on the named split; success returns the streamed records
exactly as received; any exception is re-raised as ValueError carrying the
cause in its message.  The Nat counts load_dataset invocations, always 1. -/
def load_default_data (fetch_split : Except String (List Segment)) :
    Except PyExc (List Segment) × Nat :=
  match fetch_split with
  | .ok data_hf => (.ok data_hf, 1)
  | .error e =>
      (.error (.valueError ("Error loading dataset from HuggingFace: " ++ e)), 1)

/-- C1 counterexample: on segment id DavidRockwell_2002-49.484-50.449 the
code's rename_file does not return the claimed canonical filename
DavidRockwell_2002-004948-005044.wav; neither does the intended single-parse
canonicalization, whose time components have 8 digits, not 6. -/
theorem c1_claimed_example_refuted :
    rename_file ⟨"DavidRockwell_2002-49.484-50.449", 0⟩ ≠
      Except.ok "DavidRockwell_2002-004948-005044.wav" ∧
    rename_file_intended "DavidRockwell_2002-49.484-50.449" ≠
      Except.ok "DavidRockwell_2002-004948-005044.wav" := by
  constructor <;> decide

/-- C1 amended: under the intended single-parse reading of rename_file, the
segment id DavidRockwell_2002-49.484-50.449 canonicalizes to
DavidRockwell_2002-49484000-50449000.wav (each time is truncated to 8
decimal places, re-rendered with 6 digits after the decimal point, the
separator removed, and left-zero-padded to at least width 6, giving 8-digit
components here); rename_file as written raises TypeError on this input. -/
theorem c1_amended_canonical_filename :
    rename_file_intended "DavidRockwell_2002-49.484-50.449" =
      Except.ok "DavidRockwell_2002-49484000-50449000.wav" ∧
    rename_file ⟨"DavidRockwell_2002-49.484-50.449", 0⟩ =
      Except.error PyExc.typeError := by
  exact ⟨by rfl, rfl⟩

/-- C2 counterexample: format_time does not send 49.48449999 and 49.4844 to
the same formatted string — the .6f re-render rounds the truncated value
half-to-even at the 6th decimal place, so the first becomes 49484500 while
the second stays 49484400. -/
theorem c2_claimed_equality_refuted :
    format_time "49.48449999" ≠ format_time "49.4844" := by
  decide

/-- C2 amended: format_time truncates (ROUND_DOWN) to 8 decimal places, but
the subsequent .6f re-render rounds half-to-even to 6 digits after the
decimal point before the separator is removed, so rounding up across the
6th decimal does occur: 49.48449999 renders as 49484500 (value 49.4845,
strictly above the input), 49.4844 as 49484400, and 49.48450001 also as
49484500 — the first and third coincide and the first two differ. -/
theorem c2_amended_format_time :
    format_time "49.48449999" = some "49484500" ∧
    format_time "49.4844" = some "49484400" ∧
    format_time "49.48450001" = some "49484500" ∧
    format_time "49.48449999" = format_time "49.48450001" ∧
    parseDec "49.48449999" = some ⟨4948449999, 8⟩ ∧
    quantize8Down ⟨4948449999, 8⟩ <
      roundHalfEvenDiv100 (quantize8Down ⟨4948449999, 8⟩) * 100 := by
  refine ⟨?_, ?_, ?_, ?_, ?_, ?_⟩ <;> decide

/-- C6 (code bug): rename_file as written raises TypeError for every
segment — well-formed or not — because line 135 re-invokes re.match with the
previous match result as the pattern; the documented ValueError for a
malformed id (the spec's MalformedIdError) is unreachable.  Under the
intended single-parse reading, not-an-id and Talk1-abc-5.0 do raise the
documented ValueError, and every id the pattern rejects does so. -/
theorem c6_malformed_id_code_bug :
    (∀ segment : Segment, rename_file segment = Except.error PyExc.typeError) ∧
    rename_file_intended "not-an-id" =
      Except.error (PyExc.valueError "Invalid segment ID format: not-an-id") ∧
    rename_file_intended "Talk1-abc-5.0" =
      Except.error (PyExc.valueError "Invalid segment ID format: Talk1-abc-5.0") ∧
    (∀ s : String, (∃ g, reMatchTimings s = some g) ∨
      rename_file_intended s =
        Except.error (PyExc.valueError ("Invalid segment ID format: " ++ s))) := by
  refine ⟨fun segment => rfl, by decide, by decide, fun s => ?_⟩
  cases h : reMatchTimings s with
  | none =>
      right
      unfold rename_file_intended
      rw [h]
  | some g => exact Or.inl ⟨g, rfl⟩

/-- C7: the canonical filename is a function of the segment id alone — two
segments with the same id map to the same result under rename_file as
written (both raise TypeError) and under the intended canonicalization,
which reads nothing but the id. -/
theorem c7_canonicalization_deterministic (a b : Segment) (h : a.id = b.id) :
    rename_file a = rename_file b ∧
    rename_file_intended a.id = rename_file_intended b.id := by
  exact ⟨rfl, by rw [h]⟩

/-- C7 witness: two concrete segments sharing an id but differing in payload
canonicalize identically. -/
theorem c7_determinism_witness :
    rename_file ⟨"Talk1-1.0-2.0", 0⟩ = rename_file ⟨"Talk1-1.0-2.0", 7⟩ ∧
    rename_file_intended (Segment.mk "Talk1-1.0-2.0" 0).id =
      rename_file_intended (Segment.mk "Talk1-1.0-2.0" 7).id :=
  c7_canonicalization_deterministic ⟨"Talk1-1.0-2.0", 0⟩ ⟨"Talk1-1.0-2.0", 7⟩ rfl

/-- C3 (code bug): with cache absent, the fetch-and-cache path as written
raises TypeError on any nonempty stream, because its comprehension condition
tests the unhashable segment dict for membership in the allow-list set and
hands the outcome to rename_file; under the intended condition — canonicalize
the segment's id, then test membership — only the allow-listed segment is
retained, keyed by its canonical filename. -/
theorem c3_heldback_filter_code_bug :
    load_and_pickle_from_hf {"Talk1-49480000-50440000.wav"}
        (.ok [⟨"Talk1-49.48-50.44", 0⟩, ⟨"Talk1-99.99-101.0", 1⟩]) =
      (Except.error PyExc.typeError, 1) ∧
    load_and_pickle_from_hf_intended {"Talk1-49480000-50440000.wav"}
        (.ok [⟨"Talk1-49.48-50.44", 0⟩, ⟨"Talk1-99.99-101.0", 1⟩]) =
      (Except.ok [("Talk1-49480000-50440000.wav", ⟨"Talk1-49.48-50.44", 0⟩)], 1) := by
  constructor <;> rfl

/-- C4: when the cache file holds a snapshot, _load_speakeroverlap_data
returns it as deserialized, makes zero remote load_dataset calls, and its
result does not depend on what a fetch would have produced (no freshness
check). -/
theorem c4_cache_short_circuit (snap : Snapshot) (so : Finset String)
    (fetch : Except String (List Segment)) :
    load_speakeroverlap_data (.present snap) so fetch = (.ok snap, 0) :=
  rfl

/-- C5: the fallback to the remote fetch-and-cache path fires exactly when
reading the cache raises FileNotFoundError, and any other exception raised
by the cache read propagates unchanged with no remote call made. -/
theorem c5_missing_file_only_fallback :
    (∀ (cache : CacheState) (so : Finset String)
        (fetch : Except String (List Segment)),
      (load_speakeroverlap_data cache so fetch).2 = 1 ↔
        load_from_pickle cache = .error .fileNotFound) ∧
    (∀ (e : PyExc) (so : Finset String) (fetch : Except String (List Segment)),
      e ≠ .fileNotFound →
        load_speakeroverlap_data (.failing e) so fetch = (.error e, 0)) := by
  constructor
  · intro cache so fetch
    cases cache with
    | absent =>
        cases fetch <;>
          simp [load_speakeroverlap_data, load_from_pickle, load_and_pickle_from_hf]
    | failing e =>
        by_cases he : e = .fileNotFound
        · subst he
          cases fetch <;>
            simp [load_speakeroverlap_data, load_from_pickle, load_and_pickle_from_hf]
        · simp [load_speakeroverlap_data, load_from_pickle, he]
    | present snap =>
        simp [load_speakeroverlap_data, load_from_pickle]
  · intro e so fetch he
    simp [load_speakeroverlap_data, load_from_pickle, he]

/-- C5 witness: a permission-denied error (errno 13) on the cache read
propagates unchanged, triggers no remote call, and is not the fallback
condition. -/
theorem c5_missing_file_witness :
    ((load_speakeroverlap_data (.failing (.ioError 13)) ∅ (.ok [])).2 = 1 ↔
      load_from_pickle (.failing (.ioError 13)) = .error .fileNotFound) ∧
    load_speakeroverlap_data (.failing (.ioError 13)) ∅ (.ok []) =
      (.error (.ioError 13), 0) :=
  ⟨c5_missing_file_only_fallback.1 (.failing (.ioError 13)) ∅ (.ok []),
   c5_missing_file_only_fallback.2 (.ioError 13) ∅ (.ok []) (by decide)⟩

/-- C8: _load_default_data makes exactly one fetch attempt whatever the
outcome, returns a successful fetch's records exactly as received (no
canonicalization or other transformation), and re-raises a failed fetch as
ValueError whose message names the underlying cause. -/
theorem c8_default_split_single_fetch :
    (∀ data : List Segment, load_default_data (.ok data) = (.ok data, 1)) ∧
    (∀ cause : String, load_default_data (.error cause) =
      (.error (.valueError ("Error loading dataset from HuggingFace: " ++ cause)), 1)) ∧
    (∀ fetch : Except String (List Segment), (load_default_data fetch).2 = 1) := by
  refine ⟨fun _ => rfl, fun _ => rfl, fun fetch => ?_⟩
  cases fetch <;> rfl

/-- C9: _process_speakeroverlap_data turns a readable allow-list file into
the set whose members are exactly the stripped lines with .wav appended, and
lets any exception from opening or reading the file (missing file included)
propagate unchanged. -/
theorem c9_allowlist_ingestion :
    (∀ lines : List String, ∃ s : Finset String,
      process_speakeroverlap_data (.ok lines) = .ok s ∧
      ∀ x : String, x ∈ s ↔ ∃ l ∈ lines, x = pyStrip l ++ ".wav") ∧
    (∀ e : PyExc, process_speakeroverlap_data (.error e) = .error e) := by
  refine ⟨fun lines => ⟨_, rfl, fun x => ?_⟩, fun e => rfl⟩
  simp [List.mem_map, eq_comm]

/-- C10: Signal.__init__ reads the allow-list file unconditionally before
any load method can run, so an exception from that read aborts construction
for every configuration — in particular also with the speakeroverlap flag
false, whose standard-split workflow never consults the allow-list. -/
theorem c10_eager_allowlist_aborts_init :
    ∀ (log speakeroverlap : Bool) (signal_dir release speakeroverlap_file : String)
      (e : PyExc),
      Signal.init log speakeroverlap signal_dir release speakeroverlap_file
        (.error e) = .error e :=
  fun _ _ _ _ _ _ => rfl
